import Mathlib

set_option maxRecDepth 10000

/-!
Verification of the URL-Shortener service (Go + PostgreSQL) against its
natural-language specification.  The Go code is shallowly embedded:

* `generateShortURLKey` / `generateShortURLKeyNoSalt` mirror the two key
  generators in the `shortener` package (SHA-256 of the UTF-8 bytes of the
  input, URL-safe base64, first 7 characters).  SHA-256 (Go `crypto/sha256`)
  and the padded URL-safe base64 encoding (Go `encoding/base64.URLEncoding`)
  are implemented bit-for-bit (FIPS 180-4) over `List Nat` bytes.
* `ValidateLongURL` mirrors the validator, with a faithful executable model
  of the fragment of `net/url.Parse` / `URL.Hostname` it relies on.
* The database is modelled as a list of rows (`Store`); the SQL statements
  used by `CheckDbForLongURL`, `saveURLToDatabase` and `HandleRedirectRequest`
  are interpreted over it.  `HandleShortURLRequest` is additionally
  parameterised over an abstract database environment (`DBEnv`) so that
  insert failures other than unique-key collisions can be exercised.
-/

namespace URLShortener

/-- UTF-8 encoding of one character (standard 1-4 byte encoding of the
Unicode scalar value).  Go strings are raw UTF-8 bytes, and the Go code
converts `longUrl` with `[]byte(longUrl)`, i.e. exactly these bytes. -/
def charUTF8 (c : Char) : List Nat :=
  let n := c.toNat
  if n < 128 then [n]
  else if n < 2048 then [192 + n / 64, 128 + n % 64]
  else if n < 65536 then [224 + n / 4096, 128 + n / 64 % 64, 128 + n % 64]
  else [240 + n / 262144, 128 + n / 4096 % 64, 128 + n / 64 % 64, 128 + n % 64]

/-- UTF-8 bytes of a string, as Go `[]byte(s)` produces them. -/
def utf8Bytes (s : String) : List Nat :=
  (s.data.map charUTF8).flatten

/-- Go `len(s)` on a string counts UTF-8 bytes, not runes. -/
def goLen (s : String) : Nat :=
  (utf8Bytes s).length

/-- Right rotation of a 32-bit word (FIPS 180-4 ROTR). -/
def rotr (b n : Nat) : Nat :=
  ((n >>> b) ||| (n <<< (32 - b))) % 4294967296

/-- Logical right shift (FIPS 180-4 SHR). -/
def shr (b n : Nat) : Nat := n >>> b

/-- Bitwise complement within 32 bits. -/
def bnot32 (n : Nat) : Nat := n ^^^ 4294967295

/-- SHA-256 Ch function. -/
def chF (x y z : Nat) : Nat := (x &&& y) ^^^ (bnot32 x &&& z)

/-- SHA-256 Maj function. -/
def majF (x y z : Nat) : Nat := (x &&& y) ^^^ (x &&& z) ^^^ (y &&& z)

/-- SHA-256 big Sigma-0. -/
def bigSigma0 (x : Nat) : Nat := rotr 2 x ^^^ rotr 13 x ^^^ rotr 22 x

/-- SHA-256 big Sigma-1. -/
def bigSigma1 (x : Nat) : Nat := rotr 6 x ^^^ rotr 11 x ^^^ rotr 25 x

/-- SHA-256 small sigma-0. -/
def smallSigma0 (x : Nat) : Nat := rotr 7 x ^^^ rotr 18 x ^^^ shr 3 x

/-- SHA-256 small sigma-1. -/
def smallSigma1 (x : Nat) : Nat := rotr 17 x ^^^ rotr 19 x ^^^ shr 10 x

/-- The 64 SHA-256 round constants. -/
def K256 : List Nat :=
  [1116352408, 1899447441, 3049323471, 3921009573,
   961987163, 1508970993, 2453635748, 2870763221,
   3624381080, 310598401, 607225278, 1426881987,
   1925078388, 2162078206, 2614888103, 3248222580,
   3835390401, 4022224774, 264347078, 604807628,
   770255983, 1249150122, 1555081692, 1996064986,
   2554220882, 2821834349, 2952996808, 3210313671,
   3336571891, 3584528711, 113926993, 338241895,
   666307205, 773529912, 1294757372, 1396182291,
   1695183700, 1986661051, 2177026350, 2456956037,
   2730485921, 2820302411, 3259730800, 3345764771,
   3516065817, 3600352804, 4094571909, 275423344,
   430227734, 506948616, 659060556, 883997877,
   958139571, 1322822218, 1537002063, 1747873779,
   1955562222, 2024104815, 2227730452, 2361852424,
   2428436474, 2756734187, 3204031479, 3329325298]

/-- Big-endian 8-byte encoding of a (64-bit) natural number. -/
def be64 (n : Nat) : List Nat :=
  [(n >>> 56) % 256, (n >>> 48) % 256, (n >>> 40) % 256, (n >>> 32) % 256,
   (n >>> 24) % 256, (n >>> 16) % 256, (n >>> 8) % 256, n % 256]

/-- SHA-256 message padding: append `0x80`, zeros up to 56 mod 64, then the
bit length as a big-endian 64-bit integer. -/
def padBytes (msg : List Nat) : List Nat :=
  let L := msg.length
  let z := (120 - (L + 1) % 64) % 64
  msg ++ [128] ++ List.replicate z 0 ++ be64 (8 * L)

/-- Group bytes into big-endian 32-bit words (input length is a multiple
of 4 after padding, so the wildcard case never drops data). -/
def toWords : List Nat → List Nat
  | b0 :: b1 :: b2 :: b3 :: rest =>
      (b0 * 16777216 + b1 * 65536 + b2 * 256 + b3) :: toWords rest
  | _ => []

/-- Group 32-bit words into 16-word blocks (input length is a multiple of
16 after padding, so the wildcard case never drops data). -/
def toBlocks : List Nat → List (List Nat)
  | w0 :: w1 :: w2 :: w3 :: w4 :: w5 :: w6 :: w7 ::
    w8 :: w9 :: w10 :: w11 :: w12 :: w13 :: w14 :: w15 :: rest =>
      [w0, w1, w2, w3, w4, w5, w6, w7, w8, w9, w10, w11, w12, w13, w14, w15]
        :: toBlocks rest
  | _ => []

/-- Extend a 16-word block to the 64-entry SHA-256 message schedule by
appending `n` further words. -/
def extendSchedule : List Nat → Nat → List Nat
  | ws, 0 => ws
  | ws, n + 1 =>
      let t := ws.length
      let w := (smallSigma1 (ws.getD (t - 2) 0) + ws.getD (t - 7) 0 +
                smallSigma0 (ws.getD (t - 15) 0) + ws.getD (t - 16) 0) % 4294967296
      extendSchedule (ws ++ [w]) n

/-- The eight 32-bit hash words of a SHA-256 state. -/
structure Hash8 where
  h0 : Nat
  h1 : Nat
  h2 : Nat
  h3 : Nat
  h4 : Nat
  h5 : Nat
  h6 : Nat
  h7 : Nat
  deriving DecidableEq

/-- The eight working registers a-h of the SHA-256 compression loop. -/
structure Regs where
  ra : Nat
  rb : Nat
  rc : Nat
  rd : Nat
  re : Nat
  rf : Nat
  rg : Nat
  rh : Nat
  deriving DecidableEq

/-- One round of the SHA-256 compression loop; `kw` is the pair of the
round constant and the schedule word. -/
def roundStep (st : Regs) (kw : Nat × Nat) : Regs :=
  let t1 := (st.rh + bigSigma1 st.re + chF st.re st.rf st.rg + kw.1 + kw.2) % 4294967296
  let t2 := (bigSigma0 st.ra + majF st.ra st.rb st.rc) % 4294967296
  { ra := (t1 + t2) % 4294967296, rb := st.ra, rc := st.rb, rd := st.rc,
    re := (st.rd + t1) % 4294967296, rf := st.re, rg := st.rf, rh := st.rg }

/-- SHA-256 compression of one 16-word block into the running hash. -/
def compressBlock (H : Hash8) (block : List Nat) : Hash8 :=
  let W := extendSchedule block 48
  let st0 : Regs := ⟨H.h0, H.h1, H.h2, H.h3, H.h4, H.h5, H.h6, H.h7⟩
  let st := (K256.zip W).foldl roundStep st0
  { h0 := (H.h0 + st.ra) % 4294967296, h1 := (H.h1 + st.rb) % 4294967296,
    h2 := (H.h2 + st.rc) % 4294967296, h3 := (H.h3 + st.rd) % 4294967296,
    h4 := (H.h4 + st.re) % 4294967296, h5 := (H.h5 + st.rf) % 4294967296,
    h6 := (H.h6 + st.rg) % 4294967296, h7 := (H.h7 + st.rh) % 4294967296 }

/-- The SHA-256 initial hash value. -/
def initH : Hash8 :=
  ⟨1779033703, 3144134277, 1013904242, 2773480762,
   1359893119, 2600822924, 528734635, 1541459225⟩

/-- Big-endian 4-byte encoding of a 32-bit word. -/
def wordBE (w : Nat) : List Nat :=
  [w / 16777216 % 256, w / 65536 % 256, w / 256 % 256, w % 256]

/-- The 32 digest bytes of a final SHA-256 state. -/
def bytesOfHash (H : Hash8) : List Nat :=
  wordBE H.h0 ++ wordBE H.h1 ++ wordBE H.h2 ++ wordBE H.h3 ++
  wordBE H.h4 ++ wordBE H.h5 ++ wordBE H.h6 ++ wordBE H.h7

/-- SHA-256 digest (32 bytes) of a byte sequence, as computed by Go
`crypto/sha256` (`hasher.Sum(nil)` after writing exactly these bytes). -/
def sha256 (msg : List Nat) : List Nat :=
  bytesOfHash ((toBlocks (toWords (padBytes msg))).foldl compressBlock initH)

/-- The URL-safe base64 alphabet used by Go `encoding/base64.URLEncoding`. -/
def b64Alphabet : List Char :=
  ['A', 'B', 'C', 'D', 'E', 'F', 'G', 'H', 'I', 'J', 'K', 'L', 'M',
   'N', 'O', 'P', 'Q', 'R', 'S', 'T', 'U', 'V', 'W', 'X', 'Y', 'Z',
   'a', 'b', 'c', 'd', 'e', 'f', 'g', 'h', 'i', 'j', 'k', 'l', 'm',
   'n', 'o', 'p', 'q', 'r', 's', 't', 'u', 'v', 'w', 'x', 'y', 'z',
   '0', '1', '2', '3', '4', '5', '6', '7', '8', '9', '-', '_']

/-- Alphabet character for a 6-bit value. -/
def b64Char (n : Nat) : Char := b64Alphabet.getD (n % 64) 'A'

/-- URL-safe base64 encoding with padding, as Go
`base64.URLEncoding.EncodeToString` produces it. -/
def base64urlEncode : List Nat → List Char
  | [] => []
  | [b0] => [b64Char (b0 / 4), b64Char (b0 % 4 * 16), '=', '=']
  | [b0, b1] => [b64Char (b0 / 4), b64Char (b0 % 4 * 16 + b1 / 16), b64Char (b1 % 16 * 4), '=']
  | b0 :: b1 :: b2 :: rest =>
      b64Char (b0 / 4) :: b64Char (b0 % 4 * 16 + b1 / 16) ::
      b64Char (b1 % 16 * 4 + b2 / 64) :: b64Char (b2 % 64) :: base64urlEncode rest

/-- Embedding of `generateShortURLKey` from the current `shortener` package:
SHA-256 over the bytes of `longUrl` followed by the bytes of
`":" + salt` (the two `hasher.Write` calls), URL-safe base64, and the first
7 characters; the salt is rendered in decimal as `fmt.Sprintf(":%d", salt)`
does (the attempt counter is always non-negative, so `Nat` covers it). -/
def generateShortURLKey (longUrl : String) (salt : Nat) : String :=
  let hashBytes := sha256 (utf8Bytes longUrl ++ utf8Bytes (":" ++ Nat.repr salt))
  let encoded := base64urlEncode hashBytes
  if encoded.length < 7 then "encoded string too short"
  else String.mk (encoded.take 7)

/-- Embedding of the salt-free `generateShortURLKey` from
`src/shortener/shortener.go`: SHA-256 over the bytes of `longUrl` alone,
URL-safe base64, first 7 characters. -/
def generateShortURLKeyNoSalt (longUrl : String) : String :=
  let hashBytes := sha256 (utf8Bytes longUrl)
  let encoded := base64urlEncode hashBytes
  if encoded.length < 7 then "encoded string too short"
  else String.mk (encoded.take 7)

/-- Embedding of `generateFullShortURL`: `url.JoinPath` of the base domain
`http://shan747.urs/` and the key.  For slash-free keys (every key the
service produces is 7 base64url characters) `JoinPath` is plain
concatenation and never returns an error. -/
def generateFullShortURL (shortKey : String) : String :=
  "http://shan747.urs/" ++ shortKey

/-- ASCII letter test (Go scheme parsing). -/
def isAlphaChar (c : Char) : Bool :=
  ('A' ≤ c && c ≤ 'Z') || ('a' ≤ c && c ≤ 'z')

/-- ASCII digit test. -/
def isDigitChar (c : Char) : Bool :=
  '0' ≤ c && c ≤ '9'

/-- Control characters rejected by `net/url.Parse`
(bytes below 0x20 and 0x7f). -/
def isCtlChar (c : Char) : Bool :=
  c.toNat < 32 || c.toNat == 127

/-- Whether `cs` starts with the pattern `ps` (Go `strings.HasPrefix`). -/
def goStartsWith : List Char → List Char → Bool
  | _, [] => true
  | [], _ :: _ => false
  | c :: cs, p :: ps => c == p && goStartsWith cs ps

/-- Go `strings.HasPrefix` on strings. -/
def hasPrefixStr (s pat : String) : Bool :=
  goStartsWith s.data pat.data

/-- ASCII lowercasing of a string (`strings.ToLower`; the hosts and schemes
compared by the validator are ASCII). -/
def stringToLower (s : String) : String :=
  String.mk (s.data.map Char.toLower)

/-- Scan for the colon terminating a URL scheme, as `net/url`'s `getScheme`
does: letters always continue; digits and `+ - .` continue except in first
position (then the URL has no scheme); a colon at position `i` is the scheme
separator (`i = 0` is the `missing protocol scheme` parse error); any other
character means the URL has no scheme. -/
def findSchemeColon : List Char → Nat → Option Nat
  | [], _ => none
  | c :: rest, i =>
    if isAlphaChar c then findSchemeColon rest (i + 1)
    else if isDigitChar c || c == '+' || c == '-' || c == '.' then
      (if i == 0 then none else findSchemeColon rest (i + 1))
    else if c == ':' then some i
    else none

/-- Split a character list around the LAST occurrence of `sep`
(Go `strings.LastIndex`): returns the parts before and after it. -/
def lastSplit (sep : Char) : List Char → Option (List Char × List Char)
  | [] => none
  | c :: rest =>
    match lastSplit sep rest with
    | some (pre, post) => some (c :: pre, post)
    | none => if c == sep then some ([], rest) else none

/-- Hostname of the host component of an authority, as `net/url`'s
`parseHost` plus `URL.Hostname()` produce it: a bracketed IPv6 literal loses
its brackets and optional `:port`; otherwise everything after the last colon
must be a valid (possibly empty) port and is stripped.  `none` is a parse
error (missing `]`, or an invalid port). -/
def parseHostPart : List Char → Option (List Char)
  | '[' :: rest =>
      match lastSplit ']' rest with
      | none => none
      | some (inside, tail) =>
        match tail with
        | [] => some inside
        | ':' :: digits => if digits.all isDigitChar then some inside else none
        | _ => none
  | cs =>
      match lastSplit ':' cs with
      | none => some cs
      | some (pre, post) => if post.all isDigitChar then some pre else none

/-- Strip the userinfo (up to the LAST `@`) off an authority and parse the
remaining host (`net/url`'s `parseAuthority`). -/
def hostOfAuthority (auth : List Char) : Option (List Char) :=
  match lastSplit '@' auth with
  | some (_, hostPart) => parseHostPart hostPart
  | none => parseHostPart auth

/-- The two components of a parsed URL that `ValidateLongURL` inspects:
the (lowercased) scheme and the hostname as `URL.Hostname()` returns it. -/
structure GoURL where
  scheme : String
  host : String
  deriving DecidableEq, Repr

/-- Authority parsing after scheme and query have been split off
(`net/url.parse`): if the remainder starts with `//`, the authority runs to
the next `/` and contains the host; otherwise the URL has no host. -/
def parseRest (scheme : String) (rest : List Char) : Option GoURL :=
  let rest2 := rest.takeWhile (fun c => c != '?')
  match rest2 with
  | '/' :: '/' :: tail =>
      let auth := tail.takeWhile (fun c => c != '/')
      match hostOfAuthority auth with
      | none => none
      | some h => some ⟨scheme, String.mk h⟩
  | _ => some ⟨scheme, ""⟩

/-- Executable model of the fragment of `net/url.Parse` that
`ValidateLongURL` relies on (scheme extraction with lowercasing, fragment
and query cutting, authority/host/port handling, control-character
rejection).  `none` models a non-nil parse error.  Percent-escape
validation inside hosts is not modelled; none of the hosts considered in
the theorems below contain `%`. -/
def parseGoURL (raw : String) : Option GoURL :=
  let cs := raw.data.takeWhile (fun c => c != '#')
  if cs.any isCtlChar then none
  else
    match findSchemeColon cs 0 with
    | some 0 => none
    | some (i + 1) =>
        parseRest (stringToLower (String.mk (cs.take (i + 1)))) (cs.drop (i + 2))
    | none => parseRest "" cs

/-- The four error returns of `ValidateLongURL`, in source order. -/
inductive ValidationError where
  | tooLong
  | invalidFormat
  | badScheme
  | blockedHost
  deriving DecidableEq, Repr

/-- The SSRF host block-list check of `ValidateLongURL`: literal hosts
`localhost`, `127.0.0.1`, `0.0.0.0`, `::1`, and the string-prefix ranges
`127.`, `10.`, `192.168.`, `172.16.`. -/
def isBlockedHost (host : String) : Bool :=
  host == "localhost" || host == "127.0.0.1" || host == "0.0.0.0" || host == "::1" ||
  hasPrefixStr host "127." || hasPrefixStr host "10." ||
  hasPrefixStr host "192.168." || hasPrefixStr host "172.16."

/-- `MaxURLLength` constant of the `shortener` package. -/
def MaxURLLength : Nat := 2048

/-- `MaxRetries` constant of the `shortener` package. -/
def MaxRetries : Nat := 5

/-- Embedding of `ValidateLongURL`: length check (Go `len`, i.e. UTF-8
bytes), parsability, scheme whitelist, and the SSRF host block-list over
the lowercased hostname.  `none` means the URL is accepted. -/
def ValidateLongURL (longURL : String) : Option ValidationError :=
  if MaxURLLength < goLen longURL then some ValidationError.tooLong
  else
    match parseGoURL longURL with
    | none => some ValidationError.invalidFormat
    | some u =>
      if u.scheme != "http" && u.scheme != "https" then some ValidationError.badScheme
      else if isBlockedHost (stringToLower u.host) then some ValidationError.blockedHost
      else none

/-- Database-level errors: a PostgreSQL error with its 5-character code
(`pq.Error`), or any other error. -/
inductive DBError where
  | pq (code : String)
  | other (msg : String)
  deriving DecidableEq, Repr

/-- Embedding of `isCollisionError`: true exactly for a PostgreSQL error
with the unique-constraint-violation code `23505`. -/
def isCollisionError (e : DBError) : Bool :=
  match e with
  | DBError.pq code => code == "23505"
  | DBError.other _ => false

/-- An abstract database environment: the two store operations
`HandleShortURLRequest` performs, over an abstract state type.  `lookupLong`
is `CheckDbForLongURL` (returning `""` when no row matches) and `save` is
`saveURLToDatabase` (arguments: state, short key, long URL). -/
structure DBEnv (sigma : Type) where
  lookupLong : sigma -> String -> Except DBError String × sigma
  save : sigma -> String -> String -> Except DBError Unit × sigma

/-- One row of the `urls` table (columns used by the service). -/
structure URLRow where
  shortKey : String
  longUrl : String
  clickCount : Nat
  deriving DecidableEq, Repr

/-- The `urls` table as a list of rows in insertion order. -/
abbrev Store := List URLRow

/-- The `click_count` column default of `src/sql/create_table.sql` as
checked in: `click_count INTEGER DEFAULT 1`.  (The other copy of the schema
in the repository, and the spec, say 0; see the C7 theorem.) -/
def clickCountDefault : Nat := 1

/-- Embedding of `CheckDbForLongURL`:
`SELECT short_key FROM urls WHERE long_url = $1` via `QueryRowContext`
returns the first matching row; `sql.ErrNoRows` is mapped to `("", nil)`. -/
def checkDbForLongURL (s : Store) (longURL : String) : Except DBError String × Store :=
  match s.find? (fun r => r.longUrl == longURL) with
  | some r => (Except.ok r.shortKey, s)
  | none => (Except.ok "", s)

/-- Embedding of `saveURLToDatabase`:
`INSERT INTO urls (short_key, long_url) VALUES ($1, $2)`.  The `UNIQUE`
constraint on `short_key` makes the insert fail with PostgreSQL error
`23505` when the key is already present; otherwise a new row is appended
with the schema defaults (`click_count` = `clickCountDefault`). -/
def saveURLToDatabase (s : Store) (shortKey longURL : String) : Except DBError Unit × Store :=
  if s.any (fun r => r.shortKey == shortKey) then (Except.error (DBError.pq "23505"), s)
  else (Except.ok (), s ++ [{ shortKey := shortKey, longUrl := longURL, clickCount := clickCountDefault }])

/-- The concrete PostgreSQL-backed environment. -/
def storeEnv : DBEnv Store :=
  { lookupLong := checkDbForLongURL, save := saveURLToDatabase }

/-- The error returns of `HandleShortURLRequest`, in source order:
validation failure, lookup failure, a non-collision save failure (returned
immediately), and retry exhaustion (`failed to save url after %d attempts`,
carrying the attempt bound and the last error). -/
inductive ShortenError where
  | validationFailed (e : ValidationError)
  | lookupFailed (e : DBError)
  | saveFailed (e : DBError)
  | exhausted (attempts : Nat) (e : DBError)
  deriving DecidableEq, Repr

/-- The retry loop of `HandleShortURLRequest`
(`for attempt := 0; attempt < MaxRetries; attempt++`), written with the
explicit remaining-iterations counter `rem = MaxRetries - attempt`.  Each
iteration generates the key for the current salt and tries to insert; on
success the loop breaks (the caller renders the key); a collision error
(`isCollisionError`) moves to the next salt; any other error is returned
immediately.  When the counter runs out, the trailing `if err != nil` of
the Go code reports exhaustion wrapping the last (collision) error; if the
loop never ran (`lastErr = none`, impossible for `MaxRetries = 5`) the Go
code would fall through with the empty key. -/
def shortenLoop {sigma : Type} (env : DBEnv sigma) (longUrl : String) :
    Nat -> Nat -> sigma -> Option DBError -> Except ShortenError String × sigma
  | 0, _, s, some e => (Except.error (ShortenError.exhausted MaxRetries e), s)
  | 0, _, s, none => (Except.ok "", s)
  | rem + 1, attempt, s, _ =>
      let key := generateShortURLKey longUrl attempt
      match env.save s key longUrl with
      | (Except.ok _, s2) => (Except.ok key, s2)
      | (Except.error e, s2) =>
          if isCollisionError e then shortenLoop env longUrl rem (attempt + 1) s2 (some e)
          else (Except.error (ShortenError.saveFailed e), s2)

/-- Embedding of `HandleShortURLRequest`: validate, dedup lookup, return the
existing mapping if found, otherwise run the salted retry loop; successful
keys are rendered with `generateFullShortURL`. -/
def HandleShortURLRequest {sigma : Type} (env : DBEnv sigma) (s : sigma) (longUrl : String) :
    Except ShortenError String × sigma :=
  match ValidateLongURL longUrl with
  | some e => (Except.error (ShortenError.validationFailed e), s)
  | none =>
    match env.lookupLong s longUrl with
    | (Except.error e, s1) => (Except.error (ShortenError.lookupFailed e), s1)
    | (Except.ok shortKey, s1) =>
      if shortKey != "" then (Except.ok (generateFullShortURL shortKey), s1)
      else
        match shortenLoop env longUrl MaxRetries 0 s1 none with
        | (Except.ok key, s2) => (Except.ok (generateFullShortURL key), s2)
        | (Except.error e, s2) => (Except.error e, s2)

/-- Shorthand for the shortener running against the modelled `urls` table. -/
def handleShortURLRequestDB (s : Store) (longUrl : String) : Except ShortenError String × Store :=
  HandleShortURLRequest storeEnv s longUrl

/-- The error outcomes of the redirect path, in source order: the HTTP
handler rejects an empty key and keys with characters outside the base64url
alphabet; `HandleRedirectRequest` rejects keys whose byte length is not 7,
maps `sql.ErrNoRows` to `short URL not found`, and wraps any other query
error as `database query failed`. -/
inductive RedirectError where
  | emptyKey
  | invalidChar
  | invalidLength
  | notFound
  | dbFailed (e : DBError)
  deriving DecidableEq, Repr

/-- The per-character whitelist of the HTTP redirect handler:
`A-Z`, `a-z`, `0-9`, `-`, `_`. -/
def isURLSafeChar (c : Char) : Bool :=
  ('A' ≤ c && c ≤ 'Z') || ('a' ≤ c && c ≤ 'z') ||
  ('0' ≤ c && c ≤ '9') || c == '-' || c == '_'

/-- Embedding of `HandleRedirectRequest`: reject keys whose Go `len` is not
7, then perform the single atomic statement
`UPDATE urls SET click_count = click_count + 1 WHERE short_key = $1
RETURNING long_url`: every matching row has its counter incremented, and
the returned `long_url` is scanned from the first matching row
(`sql.ErrNoRows` when none matches). -/
def HandleRedirectRequest (s : Store) (shortKey : String) : Except RedirectError String × Store :=
  if goLen shortKey != 7 then (Except.error RedirectError.invalidLength, s)
  else
    match s.find? (fun r => r.shortKey == shortKey) with
    | none => (Except.error RedirectError.notFound, s)
    | some r =>
        (Except.ok r.longUrl,
         s.map (fun row => if row.shortKey == shortKey
                           then { row with clickCount := row.clickCount + 1 }
                           else row))

/-- Embedding of the key-handling part of the HTTP handler `handleRedirect`
(`src/unnamed/part_001`): after stripping the leading `/`, an empty key and
any character outside the base64url alphabet are rejected before the store
is consulted; otherwise `HandleRedirectRequest` runs.  This composition is
the resolution engine for a short key. -/
def resolveShortKey (s : Store) (shortKey : String) : Except RedirectError String × Store :=
  if shortKey == "" then (Except.error RedirectError.emptyKey, s)
  else if !(shortKey.data.all isURLSafeChar) then (Except.error RedirectError.invalidChar, s)
  else HandleRedirectRequest s shortKey

/-- The click count currently stored for a key (first matching row). -/
def clickCountOf (s : Store) (shortKey : String) : Option Nat :=
  (s.find? (fun r => r.shortKey == shortKey)).map (fun r => r.clickCount)

/-- Iterate `HandleRedirectRequest` `k` times on the same key, threading
the store. -/
def redirectIter (s : Store) (shortKey : String) : Nat -> Store
  | 0 => s
  | k + 1 => redirectIter (HandleRedirectRequest s shortKey).2 shortKey k

/-- An abstract environment for exercising the retry loop: the dedup lookup
finds nothing, and the reply to the `i`-th insert attempt is `resp i`.  The
state records the list of keys attempted so far (each save consumes one
reply and records its key). -/
def oracleEnv (resp : Nat -> Except DBError Unit) : DBEnv (List String) :=
  { lookupLong := fun s _ => (Except.ok "", s),
    save := fun s key _ => (resp s.length, s ++ [key]) }

/-! ### Helper lemmas -/

theorem b64Char_safe (n : Nat) : isURLSafeChar (b64Char n) = true := by
  have hb : ∀ m, m < 64 → isURLSafeChar (b64Alphabet.getD m 'A') = true := by decide
  exact hb (n % 64) (Nat.mod_lt _ (by norm_num))

theorem encode_bytesOfHash_length (H : Hash8) :
    (base64urlEncode (bytesOfHash H)).length = 44 := by
  rfl

theorem encode_bytesOfHash_take7 (H : Hash8) :
    ∀ c ∈ (base64urlEncode (bytesOfHash H)).take 7, isURLSafeChar c = true := by
  simp only [bytesOfHash, wordBE, List.cons_append, List.nil_append, base64urlEncode,
    List.take_succ_cons, List.take_zero, List.mem_cons, List.not_mem_nil, or_false]
  rintro c (rfl | rfl | rfl | rfl | rfl | rfl | rfl) <;> exact b64Char_safe _

theorem generateShortURLKey_eq (u : String) (salt : Nat) :
    generateShortURLKey u salt =
      String.mk ((base64urlEncode (sha256 (utf8Bytes u ++ utf8Bytes (":" ++ Nat.repr salt)))).take 7) := by
  simp only [generateShortURLKey, sha256, encode_bytesOfHash_length]
  rw [if_neg (by omega)]

theorem generateShortURLKey_length (u : String) (salt : Nat) :
    (generateShortURLKey u salt).length = 7 := by
  rw [generateShortURLKey_eq]
  show ((base64urlEncode (sha256 (utf8Bytes u ++ utf8Bytes (":" ++ Nat.repr salt)))).take 7).length = 7
  simp only [sha256, List.length_take, encode_bytesOfHash_length]
  omega

theorem generateShortURLKey_chars (u : String) (salt : Nat) :
    ∀ c ∈ (generateShortURLKey u salt).data, isURLSafeChar c = true := by
  rw [generateShortURLKey_eq]
  intro c hc
  exact encode_bytesOfHash_take7 _ c hc

theorem generateShortURLKey_ne_empty (u : String) (salt : Nat) :
    generateShortURLKey u salt ≠ "" := by
  intro h
  have hl := generateShortURLKey_length u salt
  rw [h] at hl
  exact absurd hl (by decide)

theorem find?_bumped (key : String) (s : Store) :
    (s.map (fun row => if row.shortKey == key
                       then { row with clickCount := row.clickCount + 1 } else row)).find?
        (fun r => r.shortKey == key)
      = (s.find? (fun r => r.shortKey == key)).map
          (fun row => if row.shortKey == key
                      then { row with clickCount := row.clickCount + 1 } else row) := by
  rw [List.find?_map]
  have hfun : ((fun r : URLRow => r.shortKey == key) ∘ fun row =>
      if row.shortKey == key then { row with clickCount := row.clickCount + 1 } else row)
      = (fun r : URLRow => r.shortKey == key) := by
    funext r
    by_cases h : r.shortKey == key <;> simp [Function.comp, h]
  rw [hfun]

theorem storeEnv_lookup : storeEnv.lookupLong = checkDbForLongURL := rfl

theorem storeEnv_save : storeEnv.save = saveURLToDatabase := rfl

theorem shortenLoopDB_ok (u : String) :
    ∀ (rem attempt : Nat) (s : Store) (le : Option DBError) (key : String) (s2 : Store),
      shortenLoop storeEnv u rem attempt s le = (Except.ok key, s2) →
      (∃ i, attempt ≤ i ∧ key = generateShortURLKey u i ∧
         s2 = s ++ [{ shortKey := key, longUrl := u, clickCount := clickCountDefault }]) ∨
      (rem = 0 ∧ le = none ∧ key = "" ∧ s2 = s) := by
  intro rem
  induction rem with
  | zero =>
    intro attempt s le key s2 h
    cases le with
    | none =>
      simp only [shortenLoop, Prod.mk.injEq, Except.ok.injEq] at h
      right
      exact ⟨rfl, rfl, h.1.symm, h.2.symm⟩
    | some e =>
      simp [shortenLoop] at h
  | succ n ih =>
    intro attempt s le key s2 h
    simp only [shortenLoop, storeEnv, saveURLToDatabase] at h
    by_cases hany : s.any (fun r => r.shortKey == generateShortURLKey u attempt)
    · rw [if_pos hany] at h
      simp only [isCollisionError] at h
      rw [if_pos (by rfl)] at h
      rcases ih (attempt + 1) s (some (DBError.pq "23505")) key s2 h with
        ⟨i, hi, hk, hs⟩ | ⟨_, hcontra, _, _⟩
      · exact Or.inl ⟨i, Nat.le_of_succ_le hi, hk, hs⟩
      · exact absurd hcontra (by simp)
    · rw [if_neg hany] at h
      simp only [Prod.mk.injEq, Except.ok.injEq] at h
      exact Or.inl ⟨attempt, Nat.le_refl _, h.1.symm, by rw [← h.1, ← h.2]⟩

theorem redirect_success (s : Store) (key : String) (r : URLRow)
    (hlen : goLen key = 7)
    (hfind : s.find? (fun row => row.shortKey == key) = some r) :
    (HandleRedirectRequest s key).1 = Except.ok r.longUrl ∧
    (HandleRedirectRequest s key).2.find? (fun row => row.shortKey == key)
      = some { r with clickCount := r.clickCount + 1 } := by
  have hr := List.find?_some hfind
  simp only [] at hr
  unfold HandleRedirectRequest
  rw [hlen, if_neg (by simp), hfind]
  refine ⟨rfl, ?_⟩
  rw [find?_bumped, hfind]
  simp [hr]
  intro hne
  exact absurd (beq_iff_eq.mp hr) hne

/-! ### Claim theorems -/

/-- C9: for every input string and every salt, `generateShortURLKey` returns
a string of exactly 7 characters, each drawn from the URL-safe base64
alphabet; the internal `encoded string too short` branch is unreachable
because the SHA-256 digest is always 32 bytes and its padded URL-safe
base64 encoding is always 44 characters. -/
theorem generated_key_is_seven_urlsafe_chars (u : String) (salt : Nat) :
    (generateShortURLKey u salt).length = 7
  ∧ (∀ c ∈ (generateShortURLKey u salt).data, isURLSafeChar c = true)
  ∧ generateShortURLKey u salt ≠ "encoded string too short"
  ∧ (sha256 (utf8Bytes u ++ utf8Bytes (":" ++ Nat.repr salt))).length = 32
  ∧ (base64urlEncode (sha256 (utf8Bytes u ++ utf8Bytes (":" ++ Nat.repr salt)))).length = 44 := by
  refine ⟨generateShortURLKey_length u salt, generateShortURLKey_chars u salt, ?_, ?_, ?_⟩
  · intro h
    have hl := generateShortURLKey_length u salt
    rw [h] at hl
    exact absurd hl (by decide)
  · rfl
  · simp only [sha256]
    exact encode_bytesOfHash_length _

/-- C3 counterexample: for salt 0 the key is NOT the one produced by hashing
the long URL with no salt suffix — the code always appends `:0`, so
`generate("http://example.com", 0)` (= `kDiImHI`, from SHA-256 of
`http://example.com:0`) differs from the unsalted key (= `8OamqXB`, from
SHA-256 of `http://example.com`). -/
theorem salt_zero_key_differs_from_unsalted :
    generateShortURLKey "http://example.com" 0 ≠
      generateShortURLKeyNoSalt "http://example.com" := by
  decide

/-- C3 amended: for every longURL and salt, `generateShortURLKey` computes
the 256-bit digest over the concatenation of the long URL, a colon, and the
decimal form of the salt — for salt 0 included.  Equivalently it equals the
unsalted generator of `src/shortener/shortener.go` applied to
`longURL ++ ":" ++ salt`; it does NOT reduce to the unsalted key of the raw
long URL at salt 0. -/
theorem generateShortURLKey_hashes_salted_concat (u : String) (salt : Nat) :
    generateShortURLKey u salt = generateShortURLKeyNoSalt (u ++ (":" ++ Nat.repr salt)) := by
  unfold generateShortURLKey generateShortURLKeyNoSalt
  have h : utf8Bytes (u ++ (":" ++ Nat.repr salt)) =
      utf8Bytes u ++ utf8Bytes (":" ++ Nat.repr salt) := by
    simp only [utf8Bytes, String.data_append, List.map_append, List.flatten_append]
  rw [h]

/-- C10: a syntactically parsable URL with an `http` scheme and an empty
host is accepted by the validator: the SSRF checks compare the hostname
against literal values and string-prefix patterns, none of which match the
empty hostname.  Both `http://` and `http:///path` parse to hostname `""`
and validate to `none` (accepted). -/
theorem empty_host_url_is_accepted :
    parseGoURL "http://" = some { scheme := "http", host := "" }
  ∧ parseGoURL "http:///path" = some { scheme := "http", host := "" }
  ∧ ValidateLongURL "http://" = none
  ∧ ValidateLongURL "http:///path" = none := by
  refine ⟨by decide, by decide, by decide, by decide⟩

/-- C4 counterexample: `172.20.0.1` lies inside the private range
`172.16.0.0/12` (which spans `172.16.0.0` - `172.31.255.255`), yet
`ValidateLongURL` accepts `http://172.20.0.1`: the code only blocks hosts
with the literal string prefix `172.16.`. -/
theorem validate_accepts_172_20_0_1 :
    ValidateLongURL "http://172.20.0.1" = none := by
  decide

/-- C4 amended: for every URL whose parsed hostname, lowercased, is one of
the literal hosts `localhost`, `127.0.0.1`, `0.0.0.0`, `::1` or has one of
the string prefixes `127.`, `10.`, `192.168.`, `172.16.` (only the first
/16 slice of the 172.16.0.0/12 range), the validator rejects it with some
validation error.  Hosts elsewhere in 172.16.0.0/12, such as `172.20.0.1`,
are not rejected. -/
theorem blocked_host_is_rejected (url : String) (g : GoURL)
    (hp : parseGoURL url = some g)
    (hb : isBlockedHost (stringToLower g.host) = true) :
    (ValidateLongURL url).isSome = true := by
  unfold ValidateLongURL
  split
  · rfl
  · rw [hp]
    by_cases hs : (g.scheme != "http" && g.scheme != "https") = true
    · simp [hs]
    · simp [hs, hb]

/-- Witness for the C4 amended theorem at `http://localhost/admin`
(the spec scenario `shorten("http://localhost/admin") → ValidationError`). -/
theorem blocked_host_is_rejected_witness :
    parseGoURL "http://localhost/admin" = some { scheme := "http", host := "localhost" }
  ∧ isBlockedHost (stringToLower "localhost") = true
  ∧ (ValidateLongURL "http://localhost/admin").isSome = true := by
  exact ⟨by decide, by decide,
    blocked_host_is_rejected "http://localhost/admin" { scheme := "http", host := "localhost" }
      (by decide) (by decide)⟩

/-- C8: whenever validation fails, `HandleShortURLRequest` returns the
validation error immediately with the state unchanged, for EVERY database
environment and state — in particular it performs no store operation of
any kind (the result does not depend on the environment at all). -/
theorem validation_failure_skips_store (u : String) (e : ValidationError)
    (h : ValidateLongURL u = some e) :
    ∀ (sigma : Type) (env : DBEnv sigma) (s : sigma),
      HandleShortURLRequest env s u =
        (Except.error (ShortenError.validationFailed e), s) := by
  intro sigma env s
  unfold HandleShortURLRequest
  rw [h]

/-- Witness for C8 at the SSRF-rejected URL `http://localhost/admin` over a
non-empty concrete store. -/
theorem validation_failure_skips_store_witness :
    ValidateLongURL "http://localhost/admin" = some ValidationError.blockedHost
  ∧ HandleShortURLRequest storeEnv
      [{ shortKey := "zzzzzzz", longUrl := "http://a.com", clickCount := 3 }]
      "http://localhost/admin" =
    (Except.error (ShortenError.validationFailed ValidationError.blockedHost),
     [{ shortKey := "zzzzzzz", longUrl := "http://a.com", clickCount := 3 }]) := by
  exact ⟨by decide,
    validation_failure_skips_store "http://localhost/admin" ValidationError.blockedHost
      (by decide) Store storeEnv _⟩

/-- C7 (code bug): a mapping created by a successful `shorten` carries the
`click_count` column default of `src/sql/create_table.sql` as checked in,
which is `DEFAULT 1`, not 0 (that file is moreover not executable SQL: it
is missing the comma after `CURRENT_TIMESTAMP`; the repository's other copy
of the schema says `DEFAULT 0`, which is what the spec states).  Shortening
`http://example.com` against an empty store creates its row with
`clickCount = 1 ≠ 0`. -/
theorem new_mapping_click_count_is_schema_default :
    (handleShortURLRequestDB [] "http://example.com").2 =
      [{ shortKey := "kDiImHI", longUrl := "http://example.com", clickCount := 1 }]
  ∧ clickCountDefault = 1
  ∧ clickCountDefault ≠ 0 := by
  exact ⟨by rfl, rfl, by decide⟩

/-- C6: the resolution engine (the HTTP handler character whitelist
composed with the key-length check of `HandleRedirectRequest`) rejects
every key whose Go byte length is not 7 and every key containing a
character outside `[A-Za-z0-9_-]`, in both cases with a client-side
invalid-key error that is distinct from not-found and from store errors,
and without any store access: the result is the same error for every
store, and the store is returned unchanged. -/
theorem malformed_key_rejected_before_store (key : String)
    (h : goLen key ≠ 7 ∨ key.data.all isURLSafeChar = false) :
    ∃ e, e ≠ RedirectError.notFound ∧ (∀ d, e ≠ RedirectError.dbFailed d) ∧
      ∀ s : Store, resolveShortKey s key = (Except.error e, s) := by
  by_cases hk : key == ""
  · refine ⟨RedirectError.emptyKey, by simp, by simp, fun s => ?_⟩
    unfold resolveShortKey
    rw [if_pos hk]
  · by_cases hc : key.data.all isURLSafeChar
    · have hlen : goLen key ≠ 7 := by
        rcases h with h | h
        · exact h
        · rw [hc] at h
          exact absurd h (by simp)
      refine ⟨RedirectError.invalidLength, by simp, by simp, fun s => ?_⟩
      unfold resolveShortKey HandleRedirectRequest
      rw [if_neg (by simpa using hk), if_neg (by simpa using hc),
        if_pos (by simpa using hlen)]
    · refine ⟨RedirectError.invalidChar, by simp, by simp, fun s => ?_⟩
      unfold resolveShortKey
      rw [if_neg (by simpa using hk), if_pos (by simpa using hc)]

/-- Witness for C6 at the well-charactered but short key `abc` over a
concrete store containing it (3 bytes, so the length check fires; no store
access happens even though a row with that key exists). -/
theorem malformed_key_rejected_before_store_witness :
    (goLen "abc" ≠ 7 ∨ ("abc" : String).data.all isURLSafeChar = false)
  ∧ (∃ e, e ≠ RedirectError.notFound ∧ (∀ d, e ≠ RedirectError.dbFailed d) ∧
      ∀ s : Store, resolveShortKey s "abc" = (Except.error e, s)) := by
  exact ⟨Or.inl (by decide), malformed_key_rejected_before_store "abc" (Or.inl (by decide))⟩

/-- C2: for a 7-byte key with an assigned mapping (first matching row `r`),
`HandleRedirectRequest` returns that mapping's long URL and its single
atomic update increments the mapping's click count by exactly 1, so `k`
successive successful calls add exactly `k`; for a well-formed key with no
mapping it returns the not-found signal, which is distinct from the
store-error signal, with the store unchanged.  (Concurrency is outside
this sequential model; the update-and-read is a single store operation by
construction.) -/
theorem resolve_returns_url_and_increments (s : Store) (key : String) (r : URLRow)
    (hlen : goLen key = 7)
    (hfind : s.find? (fun row => row.shortKey == key) = some r) :
    (HandleRedirectRequest s key).1 = Except.ok r.longUrl
  ∧ clickCountOf (HandleRedirectRequest s key).2 key = some (r.clickCount + 1)
  ∧ (∀ k, clickCountOf (redirectIter s key k) key = some (r.clickCount + k))
  ∧ (∀ t : Store, t.find? (fun row => row.shortKey == key) = none →
      HandleRedirectRequest t key = (Except.error RedirectError.notFound, t))
  ∧ (∀ d, RedirectError.notFound ≠ RedirectError.dbFailed d) := by
  obtain ⟨h1, h2⟩ := redirect_success s key r hlen hfind
  have main : ∀ (k : Nat) (t : Store) (q : URLRow),
      t.find? (fun row => row.shortKey == key) = some q →
      clickCountOf (redirectIter t key k) key = some (q.clickCount + k) := by
    intro k
    induction k with
    | zero =>
      intro t q hf
      unfold redirectIter clickCountOf
      rw [hf]
      rfl
    | succ n ih =>
      intro t q hf
      obtain ⟨_, hq⟩ := redirect_success t key q hlen hf
      unfold redirectIter
      rw [ih _ _ hq]
      congr 1
      simp only []
      omega
  refine ⟨h1, ?_, fun k => main k s r hfind, ?_, by simp⟩
  · unfold clickCountOf
    rw [h2]
    rfl
  · intro t hf
    unfold HandleRedirectRequest
    rw [hlen, if_neg (by simp), hf]

/-- Witness for C2 on a concrete one-row store holding the mapping
`kDiImHI -> http://example.com` with click count 1. -/
theorem resolve_returns_url_and_increments_witness :
    goLen "kDiImHI" = 7
  ∧ ([{ shortKey := "kDiImHI", longUrl := "http://example.com", clickCount := 1 }] : Store).find?
        (fun row => row.shortKey == "kDiImHI")
      = some { shortKey := "kDiImHI", longUrl := "http://example.com", clickCount := 1 }
  ∧ ((HandleRedirectRequest [{ shortKey := "kDiImHI", longUrl := "http://example.com", clickCount := 1 }] "kDiImHI").1
      = Except.ok "http://example.com"
    ∧ clickCountOf (HandleRedirectRequest [{ shortKey := "kDiImHI", longUrl := "http://example.com", clickCount := 1 }] "kDiImHI").2 "kDiImHI"
      = some 2
    ∧ (∀ k, clickCountOf (redirectIter [{ shortKey := "kDiImHI", longUrl := "http://example.com", clickCount := 1 }] "kDiImHI" k) "kDiImHI" = some (1 + k))
    ∧ (∀ t : Store, t.find? (fun row => row.shortKey == "kDiImHI") = none →
        HandleRedirectRequest t "kDiImHI" = (Except.error RedirectError.notFound, t))
    ∧ (∀ d, RedirectError.notFound ≠ RedirectError.dbFailed d)) := by
  exact ⟨by decide, by decide,
    resolve_returns_url_and_increments
      [{ shortKey := "kDiImHI", longUrl := "http://example.com", clickCount := 1 }]
      "kDiImHI"
      { shortKey := "kDiImHI", longUrl := "http://example.com", clickCount := 1 }
      (by decide) (by decide)⟩

/-- C1: if a call to `shorten` on a store whose rows all carry non-empty
keys (every row the service creates has a 7-character key) succeeds with
short URL `out` and post-state `s2`, then calling `shorten` again on the
same long URL returns the same `out` — via the dedup lookup — and leaves
the store unchanged: no second mapping is created. -/
theorem shorten_twice_same_short_url (s : Store) (u out : String) (s2 : Store)
    (hinv : ∀ r ∈ s, r.shortKey ≠ "")
    (h : handleShortURLRequestDB s u = (Except.ok out, s2)) :
    handleShortURLRequestDB s2 u = (Except.ok out, s2) := by
  unfold handleShortURLRequestDB HandleShortURLRequest at h ⊢
  cases hv : ValidateLongURL u with
  | some e =>
    rw [hv] at h
    exact absurd h (by simp)
  | none =>
    rw [hv] at h
    cases hf : s.find? (fun r => r.longUrl == u) with
    | some r =>
      have hks : r.shortKey ≠ "" := hinv r (List.mem_of_find?_eq_some hf)
      simp only [storeEnv_lookup, checkDbForLongURL, hf] at h
      rw [if_pos (by simpa using hks)] at h
      simp only [Prod.mk.injEq, Except.ok.injEq] at h
      rw [← h.2]
      simp only [storeEnv_lookup, checkDbForLongURL, hf]
      rw [if_pos (by simpa using hks), h.1]
    | none =>
      simp only [storeEnv_lookup, checkDbForLongURL, hf] at h
      rw [if_neg (by simp)] at h
      cases hl : shortenLoop storeEnv u MaxRetries 0 s none with
      | mk res s3 =>
        rw [hl] at h
        cases res with
        | error e2 => exact absurd h (by simp)
        | ok key =>
          simp only [Prod.mk.injEq, Except.ok.injEq] at h
          rcases shortenLoopDB_ok u MaxRetries 0 s none key s3 hl with
            ⟨i, _, hk, hs⟩ | ⟨hrem, _, _, _⟩
          · have hkey : key ≠ "" := by
              rw [hk]
              exact generateShortURLKey_ne_empty u i
            rw [← h.2, hs]
            simp only [storeEnv_lookup, checkDbForLongURL, List.find?_append, hf,
              Option.none_or]
            rw [List.find?_cons_of_pos _ (by simp)]
            simp [hkey, h.1]
          · exact absurd hrem (by decide)

/-- Witness for C1: shortening `http://example.com` on the empty store
creates the `kDiImHI` mapping; the theorem then shows the second call
returns the same short URL and the same one-row store. -/
theorem shorten_twice_same_short_url_witness :
    handleShortURLRequestDB
        [{ shortKey := "kDiImHI", longUrl := "http://example.com", clickCount := 1 }]
        "http://example.com" =
      (Except.ok "http://shan747.urs/kDiImHI",
       [{ shortKey := "kDiImHI", longUrl := "http://example.com", clickCount := 1 }]) := by
  exact shorten_twice_same_short_url [] "http://example.com" "http://shan747.urs/kDiImHI"
    [{ shortKey := "kDiImHI", longUrl := "http://example.com", clickCount := 1 }]
    (by simp) (by rfl)

theorem oracleEnv_save (resp : Nat -> Except DBError Unit) (s : List String) (key lu : String) :
    (oracleEnv resp).save s key lu = (resp s.length, s ++ [key]) := rfl

theorem oracleEnv_lookup (resp : Nat -> Except DBError Unit) (s : List String) (lu : String) :
    (oracleEnv resp).lookupLong s lu = (Except.ok "", s) := rfl

theorem handle_oracle_error (resp : Nat -> Except DBError Unit) (u : String)
    (hv : ValidateLongURL u = none) (e : ShortenError) (st : List String)
    (hl : shortenLoop (oracleEnv resp) u MaxRetries 0 [] none = (Except.error e, st)) :
    HandleShortURLRequest (oracleEnv resp) [] u = (Except.error e, st) := by
  unfold HandleShortURLRequest
  rw [hv]
  simp [oracleEnv_lookup, hl]

theorem handle_oracle_state (resp : Nat -> Except DBError Unit) (u : String)
    (hv : ValidateLongURL u = none) :
    (HandleShortURLRequest (oracleEnv resp) [] u).2 =
      (shortenLoop (oracleEnv resp) u MaxRetries 0 [] none).2 := by
  unfold HandleShortURLRequest
  rw [hv]
  simp only [oracleEnv_lookup]
  cases hl : shortenLoop (oracleEnv resp) u MaxRetries 0 [] none with
  | mk res st =>
    cases res <;> simp [hl]

theorem oracleLoop_collision (resp : Nat -> Except DBError Unit) (u : String)
    (rem attempt : Nat) (ks : List String) (le : Option DBError) (e : DBError)
    (hr : resp ks.length = Except.error e) (hc : isCollisionError e = true) :
    shortenLoop (oracleEnv resp) u (rem + 1) attempt ks le =
      shortenLoop (oracleEnv resp) u rem (attempt + 1)
        (ks ++ [generateShortURLKey u attempt]) (some e) := by
  simp only [shortenLoop, oracleEnv_save, hr]
  simp [hc]

theorem oracleLoop_fail (resp : Nat -> Except DBError Unit) (u : String)
    (rem attempt : Nat) (ks : List String) (le : Option DBError) (e : DBError)
    (hr : resp ks.length = Except.error e) (hc : isCollisionError e = false) :
    shortenLoop (oracleEnv resp) u (rem + 1) attempt ks le =
      (Except.error (ShortenError.saveFailed e), ks ++ [generateShortURLKey u attempt]) := by
  simp only [shortenLoop, oracleEnv_save, hr]
  simp [hc]

theorem oracleLoop_exhaust (resp : Nat -> Except DBError Unit) (u : String)
    (attempt : Nat) (ks : List String) (e : DBError) :
    shortenLoop (oracleEnv resp) u 0 attempt ks (some e) =
      (Except.error (ShortenError.exhausted MaxRetries e), ks) := rfl

theorem oracleLoop_len (resp : Nat -> Except DBError Unit) (u : String) :
    ∀ (rem attempt : Nat) (ks : List String) (le : Option DBError),
      ((shortenLoop (oracleEnv resp) u rem attempt ks le).2).length ≤ ks.length + rem := by
  intro rem
  induction rem with
  | zero =>
    intro attempt ks le
    cases le <;> simp [shortenLoop]
  | succ n ih =>
    intro attempt ks le
    cases hr : resp ks.length with
    | ok v =>
      cases v
      simp only [shortenLoop, oracleEnv_save, hr]
      simp
    | error e =>
      by_cases hc : isCollisionError e = true
      · simp only [shortenLoop, oracleEnv_save, hr]
        simp only [hc, if_true]
        have := ih (attempt + 1) (ks ++ [generateShortURLKey u attempt]) (some e)
        simp at this ⊢
        omega
      · simp only [shortenLoop, oracleEnv_save, hr]
        simp only [Bool.not_eq_true] at hc
        simp [hc]

/-- C5: when the dedup lookup finds nothing, the retry loop makes at most 5
insert attempts whose keys carry integer salts 0,1,2,... in order; a
uniqueness-violation (collision) failure triggers the next attempt; any
other insert failure is returned immediately with no further attempts (the
attempted-key trace stops at it); and five straight collisions yield the
exhausted-retries error naming the attempt count 5.  The final oracle state
is the exact list of keys attempted. -/
theorem retry_loop_bounded_and_salted (u : String) (resp : Nat -> Except DBError Unit)
    (hv : ValidateLongURL u = none) :
    (∀ e4, (∀ j, j < 4 → ∃ e, resp j = Except.error e ∧ isCollisionError e = true) →
       resp 4 = Except.error e4 → isCollisionError e4 = true →
       HandleShortURLRequest (oracleEnv resp) [] u =
         (Except.error (ShortenError.exhausted 5 e4),
          (List.range 5).map (generateShortURLKey u)))
  ∧ (∀ j e, j < 5 →
       (∀ i, i < j → ∃ e2, resp i = Except.error e2 ∧ isCollisionError e2 = true) →
       resp j = Except.error e → isCollisionError e = false →
       HandleShortURLRequest (oracleEnv resp) [] u =
         (Except.error (ShortenError.saveFailed e),
          (List.range (j + 1)).map (generateShortURLKey u)))
  ∧ (HandleShortURLRequest (oracleEnv resp) [] u).2.length ≤ 5 := by
  refine ⟨?_, ?_, ?_⟩
  · intro e4 hcols hr4 hc4
    obtain ⟨ec0, hr0, hc0⟩ := hcols 0 (by omega)
    obtain ⟨ec1, hr1, hc1⟩ := hcols 1 (by omega)
    obtain ⟨ec2, hr2, hc2⟩ := hcols 2 (by omega)
    obtain ⟨ec3, hr3, hc3⟩ := hcols 3 (by omega)
    have s1 : shortenLoop (oracleEnv resp) u 5 0 [] none =
        shortenLoop (oracleEnv resp) u 4 1
          [generateShortURLKey u 0] (some ec0) :=
      oracleLoop_collision resp u 4 0 [] none ec0 hr0 hc0
    have s2 : shortenLoop (oracleEnv resp) u 4 1
          [generateShortURLKey u 0] (some ec0) =
        shortenLoop (oracleEnv resp) u 3 2
          [generateShortURLKey u 0, generateShortURLKey u 1] (some ec1) :=
      oracleLoop_collision resp u 3 1 [generateShortURLKey u 0] (some ec0) ec1 hr1 hc1
    have s3 : shortenLoop (oracleEnv resp) u 3 2
          [generateShortURLKey u 0, generateShortURLKey u 1] (some ec1) =
        shortenLoop (oracleEnv resp) u 2 3
          [generateShortURLKey u 0, generateShortURLKey u 1,
           generateShortURLKey u 2] (some ec2) :=
      oracleLoop_collision resp u 2 2
        [generateShortURLKey u 0, generateShortURLKey u 1] (some ec1) ec2 hr2 hc2
    have s4 : shortenLoop (oracleEnv resp) u 2 3
          [generateShortURLKey u 0, generateShortURLKey u 1,
           generateShortURLKey u 2] (some ec2) =
        shortenLoop (oracleEnv resp) u 1 4
          [generateShortURLKey u 0, generateShortURLKey u 1,
           generateShortURLKey u 2, generateShortURLKey u 3] (some ec3) :=
      oracleLoop_collision resp u 1 3
        [generateShortURLKey u 0, generateShortURLKey u 1,
         generateShortURLKey u 2] (some ec2) ec3 hr3 hc3
    have s5 : shortenLoop (oracleEnv resp) u 1 4
          [generateShortURLKey u 0, generateShortURLKey u 1,
           generateShortURLKey u 2, generateShortURLKey u 3] (some ec3) =
        shortenLoop (oracleEnv resp) u 0 5
          [generateShortURLKey u 0, generateShortURLKey u 1,
           generateShortURLKey u 2, generateShortURLKey u 3,
           generateShortURLKey u 4] (some e4) :=
      oracleLoop_collision resp u 0 4
        [generateShortURLKey u 0, generateShortURLKey u 1,
         generateShortURLKey u 2, generateShortURLKey u 3] (some ec3) e4 hr4 hc4
    have hloop : shortenLoop (oracleEnv resp) u 5 0 [] none =
        (Except.error (ShortenError.exhausted 5 e4),
         [generateShortURLKey u 0, generateShortURLKey u 1,
          generateShortURLKey u 2, generateShortURLKey u 3,
          generateShortURLKey u 4]) := by
      rw [s1, s2, s3, s4, s5]
      exact oracleLoop_exhaust resp u 5 _ e4
    exact handle_oracle_error resp u hv _ _ hloop
  · intro j e hj hprior hr hc
    interval_cases j
    · have hloop : shortenLoop (oracleEnv resp) u 5 0 [] none =
          (Except.error (ShortenError.saveFailed e), [generateShortURLKey u 0]) :=
        oracleLoop_fail resp u 4 0 [] none e hr hc
      exact handle_oracle_error resp u hv _ _ hloop
    · obtain ⟨ec0, hr0, hc0⟩ := hprior 0 (by omega)
      have s1 : shortenLoop (oracleEnv resp) u 5 0 [] none =
          shortenLoop (oracleEnv resp) u 4 1
            [generateShortURLKey u 0] (some ec0) :=
        oracleLoop_collision resp u 4 0 [] none ec0 hr0 hc0
      have hloop : shortenLoop (oracleEnv resp) u 5 0 [] none =
          (Except.error (ShortenError.saveFailed e),
           [generateShortURLKey u 0, generateShortURLKey u 1]) := by
        rw [s1]
        exact oracleLoop_fail resp u 3 1 [generateShortURLKey u 0] (some ec0) e hr hc
      exact handle_oracle_error resp u hv _ _ hloop
    · obtain ⟨ec0, hr0, hc0⟩ := hprior 0 (by omega)
      obtain ⟨ec1, hr1, hc1⟩ := hprior 1 (by omega)
      have s1 : shortenLoop (oracleEnv resp) u 5 0 [] none =
          shortenLoop (oracleEnv resp) u 4 1
            [generateShortURLKey u 0] (some ec0) :=
        oracleLoop_collision resp u 4 0 [] none ec0 hr0 hc0
      have s2 : shortenLoop (oracleEnv resp) u 4 1
            [generateShortURLKey u 0] (some ec0) =
          shortenLoop (oracleEnv resp) u 3 2
            [generateShortURLKey u 0, generateShortURLKey u 1] (some ec1) :=
        oracleLoop_collision resp u 3 1 [generateShortURLKey u 0] (some ec0) ec1 hr1 hc1
      have hloop : shortenLoop (oracleEnv resp) u 5 0 [] none =
          (Except.error (ShortenError.saveFailed e),
           [generateShortURLKey u 0, generateShortURLKey u 1,
            generateShortURLKey u 2]) := by
        rw [s1, s2]
        exact oracleLoop_fail resp u 2 2
          [generateShortURLKey u 0, generateShortURLKey u 1] (some ec1) e hr hc
      exact handle_oracle_error resp u hv _ _ hloop
    · obtain ⟨ec0, hr0, hc0⟩ := hprior 0 (by omega)
      obtain ⟨ec1, hr1, hc1⟩ := hprior 1 (by omega)
      obtain ⟨ec2, hr2, hc2⟩ := hprior 2 (by omega)
      have s1 : shortenLoop (oracleEnv resp) u 5 0 [] none =
          shortenLoop (oracleEnv resp) u 4 1
            [generateShortURLKey u 0] (some ec0) :=
        oracleLoop_collision resp u 4 0 [] none ec0 hr0 hc0
      have s2 : shortenLoop (oracleEnv resp) u 4 1
            [generateShortURLKey u 0] (some ec0) =
          shortenLoop (oracleEnv resp) u 3 2
            [generateShortURLKey u 0, generateShortURLKey u 1] (some ec1) :=
        oracleLoop_collision resp u 3 1 [generateShortURLKey u 0] (some ec0) ec1 hr1 hc1
      have s3 : shortenLoop (oracleEnv resp) u 3 2
            [generateShortURLKey u 0, generateShortURLKey u 1] (some ec1) =
          shortenLoop (oracleEnv resp) u 2 3
            [generateShortURLKey u 0, generateShortURLKey u 1,
             generateShortURLKey u 2] (some ec2) :=
        oracleLoop_collision resp u 2 2
          [generateShortURLKey u 0, generateShortURLKey u 1] (some ec1) ec2 hr2 hc2
      have hloop : shortenLoop (oracleEnv resp) u 5 0 [] none =
          (Except.error (ShortenError.saveFailed e),
           [generateShortURLKey u 0, generateShortURLKey u 1,
            generateShortURLKey u 2, generateShortURLKey u 3]) := by
        rw [s1, s2, s3]
        exact oracleLoop_fail resp u 1 3
          [generateShortURLKey u 0, generateShortURLKey u 1,
           generateShortURLKey u 2] (some ec2) e hr hc
      exact handle_oracle_error resp u hv _ _ hloop
    · obtain ⟨ec0, hr0, hc0⟩ := hprior 0 (by omega)
      obtain ⟨ec1, hr1, hc1⟩ := hprior 1 (by omega)
      obtain ⟨ec2, hr2, hc2⟩ := hprior 2 (by omega)
      obtain ⟨ec3, hr3, hc3⟩ := hprior 3 (by omega)
      have s1 : shortenLoop (oracleEnv resp) u 5 0 [] none =
          shortenLoop (oracleEnv resp) u 4 1
            [generateShortURLKey u 0] (some ec0) :=
        oracleLoop_collision resp u 4 0 [] none ec0 hr0 hc0
      have s2 : shortenLoop (oracleEnv resp) u 4 1
            [generateShortURLKey u 0] (some ec0) =
          shortenLoop (oracleEnv resp) u 3 2
            [generateShortURLKey u 0, generateShortURLKey u 1] (some ec1) :=
        oracleLoop_collision resp u 3 1 [generateShortURLKey u 0] (some ec0) ec1 hr1 hc1
      have s3 : shortenLoop (oracleEnv resp) u 3 2
            [generateShortURLKey u 0, generateShortURLKey u 1] (some ec1) =
          shortenLoop (oracleEnv resp) u 2 3
            [generateShortURLKey u 0, generateShortURLKey u 1,
             generateShortURLKey u 2] (some ec2) :=
        oracleLoop_collision resp u 2 2
          [generateShortURLKey u 0, generateShortURLKey u 1] (some ec1) ec2 hr2 hc2
      have s4 : shortenLoop (oracleEnv resp) u 2 3
            [generateShortURLKey u 0, generateShortURLKey u 1,
             generateShortURLKey u 2] (some ec2) =
          shortenLoop (oracleEnv resp) u 1 4
            [generateShortURLKey u 0, generateShortURLKey u 1,
             generateShortURLKey u 2, generateShortURLKey u 3] (some ec3) :=
        oracleLoop_collision resp u 1 3
          [generateShortURLKey u 0, generateShortURLKey u 1,
           generateShortURLKey u 2] (some ec2) ec3 hr3 hc3
      have hloop : shortenLoop (oracleEnv resp) u 5 0 [] none =
          (Except.error (ShortenError.saveFailed e),
           [generateShortURLKey u 0, generateShortURLKey u 1,
            generateShortURLKey u 2, generateShortURLKey u 3,
            generateShortURLKey u 4]) := by
        rw [s1, s2, s3, s4]
        exact oracleLoop_fail resp u 0 4
          [generateShortURLKey u 0, generateShortURLKey u 1,
           generateShortURLKey u 2, generateShortURLKey u 3] (some ec3) e hr hc
      exact handle_oracle_error resp u hv _ _ hloop
  · rw [handle_oracle_state resp u hv]
    have h := oracleLoop_len resp u MaxRetries 0 [] none
    simpa [MaxRetries] using h

/-- Witness for C5: with every insert reply a PostgreSQL 23505 collision,
shortening `http://example.com` exhausts all five salted attempts. -/
theorem retry_loop_bounded_and_salted_witness :
    ValidateLongURL "http://example.com" = none
  ∧ ((∀ e4, (∀ j, j < 4 → ∃ e, (fun (_ : Nat) => (Except.error (DBError.pq "23505") : Except DBError Unit)) j = Except.error e ∧ isCollisionError e = true) →
        (fun (_ : Nat) => (Except.error (DBError.pq "23505") : Except DBError Unit)) 4 = Except.error e4 → isCollisionError e4 = true →
        HandleShortURLRequest (oracleEnv (fun _ => Except.error (DBError.pq "23505"))) [] "http://example.com" =
          (Except.error (ShortenError.exhausted 5 e4),
           (List.range 5).map (generateShortURLKey "http://example.com")))
    ∧ (∀ j e, j < 5 →
        (∀ i, i < j → ∃ e2, (fun (_ : Nat) => (Except.error (DBError.pq "23505") : Except DBError Unit)) i = Except.error e2 ∧ isCollisionError e2 = true) →
        (fun (_ : Nat) => (Except.error (DBError.pq "23505") : Except DBError Unit)) j = Except.error e → isCollisionError e = false →
        HandleShortURLRequest (oracleEnv (fun _ => Except.error (DBError.pq "23505"))) [] "http://example.com" =
          (Except.error (ShortenError.saveFailed e),
           (List.range (j + 1)).map (generateShortURLKey "http://example.com")))
    ∧ (HandleShortURLRequest (oracleEnv (fun _ => Except.error (DBError.pq "23505"))) [] "http://example.com").2.length ≤ 5) := by
  exact ⟨by decide,
    retry_loop_bounded_and_salted "http://example.com"
      (fun _ => Except.error (DBError.pq "23505")) (by decide)⟩

end URLShortener
